import Mathlib

/-!
Shallow embedding of `src/01_generate_historical_ndvi.js`, a Google Earth
Engine (GEE) script that builds yearly summer maximum-NDVI composites from
Landsat MSS and TM imagery and creates one asset-export task per configured
(year, sensor) period.

Modelling choices:
* A pixel is an abstract index (`Nat`); band values are exact rationals `ℚ`.
  A masked (nodata) pixel is `none : Option ℚ`.
* A GEE `ee.Image` before NDVI mapping is `RawImage`: a band lookup
  (band name → pixel → optional value), an acquisition date, and a flag
  recording whether its footprint intersects the area of interest (AOI),
  which is what `filterBounds` tests.
* The GEE image catalog (`ee.ImageCollection(id)`) is a function from the
  collection id string to the list of images it holds.
* GEE arithmetic on images is pixelwise and mask-propagating; `divide`
  returns an unmasked 0 for division by zero (documented GEE semantics;
  the script applies no updateMask to the denominator), which coincides
  with the rational convention x / 0 = 0 used here.
* The call `qualityMosaic(NDVI)` followed by `select(NDVI)` keeps, per pixel,
  the maximum NDVI value among the unmasked observations at that pixel
  (documented per-pixel ordering semantics of `qualityMosaic`); a pixel at
  which every image is masked stays masked.  `.clip(AOI)` masks pixels
  outside the AOI.
* GEE evaluates the image chain lazily: `qualityMosaic` of an empty
  collection yields an image with no bands, so the select(NDVI) step fails
  at evaluation (export) time with a no-matching-band error.  `evalComposite`
  models the evaluation of the deferred chain, including that error path;
  `qualityMosaicNdvi` is the raster evaluation yields when the collection is
  nonempty.
* Dates are encoded as `year*10000 + month*100 + day`, which is
  order-isomorphic to lexicographic (year, month, day) order for the
  calendar ranges involved, so `filterDate(start, end)` is the half-open
  numeric interval `start ≤ d < end`.
-/

/-- Abstract pixel locations of the raster grid. -/
abbrev Pixel : Type := Nat

/-- A GEE image as consumed by the script: named bands of optional (maskable)
rational values, an acquisition date, and the footprint/AOI intersection flag
tested by `filterBounds`. -/
structure RawImage where
  bands : String → Pixel → Option ℚ
  date : Nat
  boundsIntersectAoi : Bool

/-- The remote image catalog: collection id ↦ images of that collection. -/
abbrev Catalog : Type := String → List RawImage

/-- An image of the mapped NDVI collection: a single band named NDVI. -/
structure NdviImage where
  band : Pixel → Option ℚ

/-- The summer window of `CONFIG.summer` in the script. -/
structure SummerWindow where
  startMonth : Nat
  startDay : Nat
  endMonth : Nat
  endDay : Nat

/-- The export resolutions of `CONFIG.scale` in the script. -/
structure ScaleConfig where
  mss : Nat
  tm : Nat

/-- One entry of `CONFIG.periods`. -/
structure Period where
  year : Nat
  sensor : String

/-- The user configuration object `CONFIG` of the script. -/
structure Config where
  aoiAssetPath : String
  outputAssetFolder : String
  summer : SummerWindow
  scale : ScaleConfig
  periods : List Period

/-- The literal `CONFIG` value of `src/01_generate_historical_ndvi.js`. -/
def CONFIG : Config :=
  { aoiAssetPath := "users/username/path/to/AOI"
  , outputAssetFolder := "users/username/path/to/assets"
  , summer := { startMonth := 6, startDay := 1, endMonth := 9, endDay := 1 }
  , scale := { mss := 180, tm := 120 }
  , periods :=
      [ { year := 1975, sensor := "MSS" }
      , { year := 1980, sensor := "MSS" }
      , { year := 1985, sensor := "TM" }
      , { year := 1990, sensor := "TM" } ] }

/-- Collection id of Landsat 2 MSS used for the MSS sensor group. -/
def lm02Id : String := "LANDSAT/LM02/C02/T1"

/-- Collection id of Landsat 3 MSS used for the MSS sensor group. -/
def lm03Id : String := "LANDSAT/LM03/C02/T1"

/-- Collection id of Landsat 5 TM used for the TM sensor. -/
def lt05Id : String := "LANDSAT/LT05/C02/T1_TOA"

/-- MSS near-infrared band name. -/
def mssNir : String := "B7"

/-- MSS red band name. -/
def mssRed : String := "B5"

/-- TM near-infrared band name. -/
def tmNir : String := "B4"

/-- TM red band name. -/
def tmRed : String := "B3"

/-- Pixelwise, mask-propagating subtraction (`ee.Image.subtract`). -/
def eeSub (a b : Option ℚ) : Option ℚ :=
  match a, b with
  | some x, some y => some (x - y)
  | _, _ => none

/-- Pixelwise, mask-propagating addition (`ee.Image.add`). -/
def eeAdd (a b : Option ℚ) : Option ℚ :=
  match a, b with
  | some x, some y => some (x + y)
  | _, _ => none

/-- Pixelwise, mask-propagating division (`ee.Image.divide`).  GEE division
returns an unmasked 0 for division by zero, and the script applies no mask
to the denominator; Lean's rational division already satisfies x / 0 = 0,
so the quotient needs no special case. -/
def eeDivide (a b : Option ℚ) : Option ℚ :=
  match a, b with
  | some x, some y => some (x / y)
  | _, _ => none

/-- Numeric date encoding of `ee.Date.fromYMD`: comparisons on it agree with
lexicographic (year, month, day) order for calendar month/day values. -/
def ymd (year month day : Nat) : Nat :=
  year * 10000 + month * 100 + day

/-- Whether `filterDate(start, end)` keeps the image for the given year's
summer window of the configuration: `start ≤ date < end`, half-open. -/
def inSummerWindow (cfg : Config) (year : Nat) (img : RawImage) : Bool :=
  decide (ymd year cfg.summer.startMonth cfg.summer.startDay ≤ img.date) &&
  decide (img.date < ymd year cfg.summer.endMonth cfg.summer.endDay)

/-- The body of the `.map` in `makeNdviCollection`: clip the image to the
AOI, select the NIR and red bands, and compute NDVI = (NIR − RED)/(NIR + RED)
as the single band of the result.  Clipping masks every pixel outside the
AOI, so NDVI there is masked. -/
def ndviOf (aoi : Pixel → Bool) (nirBand redBand : String) (img : RawImage) :
    NdviImage :=
  { band := fun p =>
      if aoi p then
        eeDivide (eeSub (img.bands nirBand p) (img.bands redBand p))
                 (eeAdd (img.bands nirBand p) (img.bands redBand p))
      else none }

/-- Embeds `makeNdviCollection(year, collectionId, nirBand, redBand)` of the script:
filter the catalog collection to the year's summer date window and to images
whose bounds intersect the AOI, then map each image to its clipped NDVI. -/
def makeNdviCollection (cfg : Config) (cat : Catalog) (aoi : Pixel → Bool)
    (year : Nat) (collectionId nirBand redBand : String) : List NdviImage :=
  ((cat collectionId).filter
      (fun img => inSummerWindow cfg year img && img.boundsIntersectAoi)).map
    (ndviOf aoi nirBand redBand)

/-- The unmasked NDVI values present at a pixel across a collection: these
are exactly the values `qualityMosaic` ranks at that pixel. -/
def pixelValues (col : List NdviImage) (p : Pixel) : List ℚ :=
  col.filterMap (fun img => img.band p)

/-- The raster which evaluating the chain qualityMosaic(NDVI), select(NDVI),
clip(AOI) of the script yields for a nonempty collection: per pixel inside
the AOI, the maximum unmasked NDVI value over the collection (masked if no
image is unmasked there); masked outside the AOI.  The empty-collection
error path of the chain is modelled by `evalComposite`. -/
def qualityMosaicNdvi (col : List NdviImage) (aoi : Pixel → Bool) :
    Pixel → Option ℚ :=
  fun p => if aoi p then (pixelValues col p).max? else none

/-- Evaluation (at export or display time) of the deferred image chain
qualityMosaic(NDVI), select(NDVI), clip(AOI): `qualityMosaic` of an empty
collection yields an image with no bands and the select(NDVI) step fails
with a no-matching-band error; for a nonempty collection every image
carries the NDVI band and evaluation yields `qualityMosaicNdvi`. -/
def evalComposite (col : List NdviImage) (aoi : Pixel → Bool) :
    Except String (Pixel → Option ℚ) :=
  if col.isEmpty then
    Except.error ("Image.select: pattern NDVI did not match any bands.")
  else Except.ok (qualityMosaicNdvi col aoi)

/-- The merged MSS collection of `yearlyNdviComposite`:
`ee.ImageCollection([]).merge(LM02 NDVI).merge(LM03 NDVI)`. -/
def mssCollection (cfg : Config) (cat : Catalog) (aoi : Pixel → Bool)
    (year : Nat) : List NdviImage :=
  ([] ++ makeNdviCollection cfg cat aoi year lm02Id mssNir mssRed)
     ++ makeNdviCollection cfg cat aoi year lm03Id mssNir mssRed

/-- The TM collection of `yearlyNdviComposite`: Landsat 5 TM TOA NDVI. -/
def tmCollection (cfg : Config) (cat : Catalog) (aoi : Pixel → Bool)
    (year : Nat) : List NdviImage :=
  makeNdviCollection cfg cat aoi year lt05Id tmNir tmRed

/-- The sensor dispatch of `yearlyNdviComposite`: the collection `col` it
assembles, or the thrown error for an unknown sensor tag. -/
def sensorCollection (cfg : Config) (cat : Catalog) (aoi : Pixel → Bool)
    (year : Nat) (sensor : String) : Except String (List NdviImage) :=
  if sensor = "MSS" then Except.ok (mssCollection cfg cat aoi year)
  else if sensor = "TM" then Except.ok (tmCollection cfg cat aoi year)
  else Except.error ("Unknown sensor type: " ++ sensor)

/-- Embeds `yearlyNdviComposite(year, sensor)` of the script: build the sensor's
NDVI collection (throwing on an unknown sensor tag) and take its
quality-mosaic maximum-NDVI composite clipped to the AOI. -/
def yearlyNdviComposite (cfg : Config) (cat : Catalog) (aoi : Pixel → Bool)
    (year : Nat) (sensor : String) : Except String (Pixel → Option ℚ) :=
  (sensorCollection cfg cat aoi year sensor).map
    (fun col => qualityMosaicNdvi col aoi)

/-- An export task as created by `Export.image.toAsset` in `exportToAsset`. -/
structure ExportTask where
  image : Pixel → Option ℚ
  description : String
  assetId : String
  scaleMeters : Nat

/-- Embeds `exportToAsset(img, year, sensor)` of the script: MSS exports at the MSS
scale, everything else at the TM scale; the task name and asset id are built
from the year only. -/
def exportToAsset (cfg : Config) (img : Pixel → Option ℚ) (year : Nat)
    (sensor : String) : ExportTask :=
  let exportScale := if sensor = "MSS" then cfg.scale.mss else cfg.scale.tm
  let name := "NDVI_SUMMER_" ++ toString year ++ "_clip"
  { image := img
  , description := name
  , assetId := cfg.outputAssetFolder ++ "/" ++ name
  , scaleMeters := exportScale }

/-- The `CONFIG.periods.forEach` execution loop: process periods in listed
order, creating one export task per period; a thrown error (unknown sensor
tag) aborts the loop, keeping the tasks already created.  Returns the
created tasks and the error message of the abort, if any. -/
def runPeriods (cfg : Config) (cat : Catalog) (aoi : Pixel → Bool) :
    List Period → List ExportTask × Option String
  | [] => ([], none)
  | pr :: rest =>
    match yearlyNdviComposite cfg cat aoi pr.year pr.sensor with
    | Except.error e => ([], some e)
    | Except.ok img =>
      let t := exportToAsset cfg img pr.year pr.sensor
      let result := runPeriods cfg cat aoi rest
      (t :: result.1, result.2)

/-- One observation of a pixel, as the spec's Compositor contract ranges
over them: an image of the named catalog collection, inside the year's
summer window, with AOI-intersecting bounds, whose NIR and RED bands are
valid at the pixel (inside the AOI), contributing the NDVI value
(NIR − RED)/(NIR + RED) — where, per GEE division, a zero-sum pixel
contributes the unmasked value 0 (the rational convention x / 0 = 0). -/
def coversAt (cfg : Config) (cat : Catalog) (aoi : Pixel → Bool) (year : Nat)
    (collectionId nirBand redBand : String) (p : Pixel) (v : ℚ) : Prop :=
  ∃ img ∈ cat collectionId,
    inSummerWindow cfg year img = true ∧
    img.boundsIntersectAoi = true ∧
    aoi p = true ∧
    ∃ n r, img.bands nirBand p = some n ∧ img.bands redBand p = some r ∧
      v = (n - r) / (n + r)

/-- An observation of a pixel for a (year, sensor) period: MSS pools the
Landsat 2 and Landsat 3 MSS collections; TM uses Landsat 5 TM. -/
def observes (cfg : Config) (cat : Catalog) (aoi : Pixel → Bool) (year : Nat)
    (sensor : String) (p : Pixel) (v : ℚ) : Prop :=
  (sensor = "MSS" ∧
    (coversAt cfg cat aoi year lm02Id mssNir mssRed p v ∨
     coversAt cfg cat aoi year lm03Id mssNir mssRed p v)) ∨
  (sensor = "TM" ∧ coversAt cfg cat aoi year lt05Id tmNir tmRed p v)

/-- The whole script run: iterate `CONFIG.periods` with the export loop. -/
def runScript (cfg : Config) (cat : Catalog) (aoi : Pixel → Bool) :
    List ExportTask × Option String :=
  runPeriods cfg cat aoi cfg.periods

/-- The collection `yearlyNdviComposite` assembles for a valid sensor tag
(the non-throwing branches of its dispatch). -/
def validSensorCollection (cfg : Config) (cat : Catalog) (aoi : Pixel → Bool)
    (year : Nat) (sensor : String) : List NdviImage :=
  if sensor = "MSS" then mssCollection cfg cat aoi year
  else tmCollection cfg cat aoi year

/-! ### Concrete test fixtures -/

/-- An AOI containing every pixel. -/
def aoi0 : Pixel → Bool := fun _ => true

/-- The empty catalog: every collection holds no images. -/
def catalog0 : Catalog := fun _ => []

/-- A Landsat 2 MSS image with NIR = 3 and RED = 1 at pixel 0, acquired
mid-July 1975: its NDVI there is (3 − 1)/(3 + 1) = 1/2. -/
def img1 : RawImage :=
  { bands := fun b p =>
      if p = 0 then
        if b = mssNir then some 3 else if b = mssRed then some 1 else none
      else none
  , date := ymd 1975 7 15
  , boundsIntersectAoi := true }

/-- A catalog holding only `img1`, in the Landsat 2 MSS collection. -/
def catalog1 : Catalog := fun cid => if cid = lm02Id then [img1] else []

/-- A Landsat 3 MSS image with NIR = 4 and RED = 1 at pixel 0, acquired
mid-July 1975: its NDVI there is (4 − 1)/(4 + 1) = 3/5. -/
def img3 : RawImage :=
  { bands := fun b p =>
      if p = 0 then
        if b = mssNir then some 4 else if b = mssRed then some 1 else none
      else none
  , date := ymd 1975 7 15
  , boundsIntersectAoi := true }

/-- A catalog holding only `img3`, in the Landsat 3 MSS collection. -/
def catalog3 : Catalog := fun cid => if cid = lm03Id then [img3] else []

/-- A Landsat 5 TM image with NIR = 1 and RED = −3 at pixel 0 (top-of-atmosphere
reflectance can be negative): its NDVI there is (1 − (−3))/(1 + (−3)) = −2,
outside the nominal [−1, 1] range. -/
def imgNeg : RawImage :=
  { bands := fun b p =>
      if p = 0 then
        if b = tmNir then some 1 else if b = tmRed then some (-3) else none
      else none
  , date := ymd 1985 7 1
  , boundsIntersectAoi := true }

/-- A catalog holding only `imgNeg`, in the Landsat 5 TM collection. -/
def catalogNeg : Catalog := fun cid => if cid = lt05Id then [imgNeg] else []

/-- An image whose NIR and RED bands sum to zero everywhere: NIR = 2,
RED = −2. -/
def imgZeroSum : RawImage :=
  { bands := fun b _ =>
      if b = tmNir then some 2 else if b = tmRed then some (-2) else none
  , date := ymd 1985 7 1
  , boundsIntersectAoi := true }

/-- A configuration whose second period carries an unknown sensor tag. -/
def cfgBad : Config :=
  { CONFIG with periods :=
      [ { year := 1975, sensor := "MSS" }
      , { year := 1980, sensor := "XYZ" } ] }

/-! ### Helper lemmas -/

/-- A nonempty list of rationals has a maximum element: `max?` returns a
member that bounds every member. -/
theorem max?_mem_and_le {l : List ℚ} (h : l ≠ []) :
    ∃ m, l.max? = some m ∧ m ∈ l ∧ ∀ v ∈ l, v ≤ m := by
  obtain ⟨x, xs, rfl⟩ := List.exists_cons_of_ne_nil h
  have hsome : (x :: xs).max? = some (xs.foldl max x) := rfl
  refine ⟨xs.foldl max x, hsome, ?_, ?_⟩
  · exact List.max?_mem (fun a b => max_choice a b) hsome
  · intro v hv
    exact (List.max?_le_iff (fun a b c => max_le_iff) hsome).mp le_rfl v hv

/-- The NDVI band of a mapped image is unmasked at a pixel exactly when the
pixel is inside the AOI and both source bands are valid there; the value is
then the quotient (NIR − RED)/(NIR + RED), with x / 0 = 0 on a zero sum. -/
theorem ndviOf_band_eq_some_iff (aoi : Pixel → Bool) (nirBand redBand : String)
    (img : RawImage) (p : Pixel) (v : ℚ) :
    (ndviOf aoi nirBand redBand img).band p = some v ↔
      aoi p = true ∧
      ∃ n r, img.bands nirBand p = some n ∧ img.bands redBand p = some r ∧
        v = (n - r) / (n + r) := by
  unfold ndviOf
  dsimp only
  by_cases ha : aoi p
  · simp only [ha, if_true, true_and]
    cases hn : img.bands nirBand p with
    | none => simp [eeSub, eeDivide]
    | some n =>
      cases hr : img.bands redBand p with
      | none => simp [eeSub, eeDivide]
      | some r =>
        simp only [eeSub, eeAdd, eeDivide]
        constructor
        · rintro ⟨⟩
          exact ⟨n, r, rfl, rfl, rfl⟩
        · rintro ⟨n', r', hn', hr', rfl⟩
          cases hn'; cases hr'; rfl
  · simp only [ha]
    constructor
    · intro hcontra; exact absurd hcontra (by simp)
    · rintro ⟨hfalse, _⟩; exact absurd hfalse (by simp [ha])

/-- Bridge: the unmasked values a mapped NDVI collection shows at a pixel
are exactly the observations `coversAt` describes. -/
theorem mem_pixelValues_makeNdviCollection (cfg : Config) (cat : Catalog)
    (aoi : Pixel → Bool) (year : Nat) (collectionId nirBand redBand : String)
    (p : Pixel) (v : ℚ) :
    v ∈ pixelValues (makeNdviCollection cfg cat aoi year
        collectionId nirBand redBand) p ↔
      coversAt cfg cat aoi year collectionId nirBand redBand p v := by
  unfold pixelValues makeNdviCollection coversAt
  rw [List.filterMap_map, List.mem_filterMap]
  constructor
  · rintro ⟨img, hmem, hband⟩
    rw [List.mem_filter] at hmem
    obtain ⟨hmem, hcond⟩ := hmem
    rw [Bool.and_eq_true] at hcond
    obtain ⟨ha, hnr⟩ := (ndviOf_band_eq_some_iff aoi nirBand redBand img p v).mp hband
    exact ⟨img, hmem, hcond.1, hcond.2, ha, hnr⟩
  · rintro ⟨img, hmem, hwin, hbnd, ha, hnr⟩
    refine ⟨img, ?_, ?_⟩
    · rw [List.mem_filter]
      exact ⟨hmem, by rw [Bool.and_eq_true]; exact ⟨hwin, hbnd⟩⟩
    · exact (ndviOf_band_eq_some_iff aoi nirBand redBand img p v).mpr ⟨ha, hnr⟩

/-- Values at a pixel of a merged collection are the values of either part. -/
theorem mem_pixelValues_append (a b : List NdviImage) (p : Pixel) (v : ℚ) :
    v ∈ pixelValues (a ++ b) p ↔
      v ∈ pixelValues a p ∨ v ∈ pixelValues b p := by
  unfold pixelValues
  rw [List.filterMap_append, List.mem_append]

/-- Bridge for a whole valid sensor period: the values the composite's
maximum ranges over at a pixel are exactly the period's observations. -/
theorem mem_pixelValues_observes (cfg : Config) (cat : Catalog)
    (aoi : Pixel → Bool) (year : Nat) (p : Pixel) (v : ℚ) :
    (v ∈ pixelValues (mssCollection cfg cat aoi year) p ↔
       observes cfg cat aoi year "MSS" p v) ∧
    (v ∈ pixelValues (tmCollection cfg cat aoi year) p ↔
       observes cfg cat aoi year "TM" p v) := by
  constructor
  · rw [mssCollection, List.nil_append, mem_pixelValues_append,
      mem_pixelValues_makeNdviCollection, mem_pixelValues_makeNdviCollection]
    unfold observes
    simp
  · rw [tmCollection, mem_pixelValues_makeNdviCollection]
    unfold observes
    simp

/-- An observation of a pixel implies the pixel is inside the AOI. -/
theorem observes_aoi {cfg : Config} {cat : Catalog} {aoi : Pixel → Bool}
    {year : Nat} {sensor : String} {p : Pixel} {v : ℚ}
    (h : observes cfg cat aoi year sensor p v) : aoi p = true := by
  rcases h with ⟨_, hc | hc⟩ | ⟨_, hc⟩ <;>
    obtain ⟨img, _, _, _, ha, _⟩ := hc <;> exact ha

/-- The quality-mosaic composite at a covered pixel inside the AOI is the
maximum of the collection's unmasked values there. -/
theorem composite_max_of_col (col : List NdviImage) (aoi : Pixel → Bool)
    (p : Pixel) (ha : aoi p = true) (hne : pixelValues col p ≠ []) :
    ∃ m, qualityMosaicNdvi col aoi p = some m ∧ m ∈ pixelValues col p ∧
      ∀ v ∈ pixelValues col p, v ≤ m := by
  obtain ⟨m, hm, hmem, hle⟩ := max?_mem_and_le hne
  exact ⟨m, by simp [qualityMosaicNdvi, ha, hm], hmem, hle⟩

/-- The MSS branch of the sensor dispatch. -/
theorem yearly_mss (cfg : Config) (cat : Catalog) (aoi : Pixel → Bool)
    (year : Nat) :
    yearlyNdviComposite cfg cat aoi year ("MSS") =
      Except.ok (qualityMosaicNdvi (mssCollection cfg cat aoi year) aoi) := rfl

/-- The TM branch of the sensor dispatch. -/
theorem yearly_tm (cfg : Config) (cat : Catalog) (aoi : Pixel → Bool)
    (year : Nat) :
    yearlyNdviComposite cfg cat aoi year ("TM") =
      Except.ok (qualityMosaicNdvi (tmCollection cfg cat aoi year) aoi) := rfl

/-- The throwing branch of the sensor dispatch. -/
theorem yearly_unknown (cfg : Config) (cat : Catalog) (aoi : Pixel → Bool)
    (year : Nat) {sensor : String} (h1 : sensor ≠ "MSS") (h2 : sensor ≠ "TM") :
    yearlyNdviComposite cfg cat aoi year sensor =
      Except.error ("Unknown sensor type: " ++ sensor) := by
  unfold yearlyNdviComposite sensorCollection
  rw [if_neg h1, if_neg h2]
  rfl

/-- For a valid sensor tag the dispatch returns `validSensorCollection`. -/
theorem sensorCollection_valid (cfg : Config) (cat : Catalog)
    (aoi : Pixel → Bool) (year : Nat) {sensor : String}
    (hs : sensor = "MSS" ∨ sensor = "TM") :
    sensorCollection cfg cat aoi year sensor =
      Except.ok (validSensorCollection cfg cat aoi year sensor) := by
  rcases hs with rfl | rfl <;> rfl

/-- NDVI of non-negative reflectances lies in [−1, 1]; a zero sum gives the
value 0 under the x / 0 = 0 convention. -/
theorem ndvi_range_of_nonneg {n r : ℚ} (hn : 0 ≤ n) (hr : 0 ≤ r) :
    -1 ≤ (n - r) / (n + r) ∧ (n - r) / (n + r) ≤ 1 := by
  by_cases hs : n + r = 0
  · rw [hs, div_zero]
    norm_num
  · have hpos : 0 < n + r := lt_of_le_of_ne (by positivity) (Ne.symm hs)
    constructor
    · rw [le_div_iff₀ hpos]
      linarith
    · rw [div_le_one hpos]
      linarith

/-- Under non-negative band values, every observation's NDVI is in [−1, 1]. -/
theorem coversAt_range {cfg : Config} {cat : Catalog} {aoi : Pixel → Bool}
    {year : Nat} {cid nb rb : String} {p : Pixel} {v : ℚ}
    (hnn : ∀ cid' img, img ∈ cat cid' → ∀ b p' w, img.bands b p' = some w → 0 ≤ w)
    (h : coversAt cfg cat aoi year cid nb rb p v) : -1 ≤ v ∧ v ≤ 1 := by
  obtain ⟨img, hmem, _, _, _, n, r, hn, hr, rfl⟩ := h
  exact ndvi_range_of_nonneg (hnn cid img hmem nb p n hn)
    (hnn cid img hmem rb p r hr)

/-! ### Claim theorems -/

/-- Claim C1: for every (year, sensor) period and every pixel covered by at
least one observation in that year's seasonal window, the composite produced
by `yearlyNdviComposite` equals the maximum NDVI value, computed as
(NIR − RED)/(NIR + RED), among all observations covering that pixel in that
window. -/
theorem composite_equals_max_observed_ndvi (cfg : Config) (cat : Catalog)
    (aoi : Pixel → Bool) (year : Nat) (sensor : String) (p : Pixel)
    (f : Pixel → Option ℚ)
    (hok : yearlyNdviComposite cfg cat aoi year sensor = Except.ok f)
    (hcov : ∃ v, observes cfg cat aoi year sensor p v) :
    ∃ m, f p = some m ∧ observes cfg cat aoi year sensor p m ∧
      ∀ v, observes cfg cat aoi year sensor p v → v ≤ m := by
  obtain ⟨v0, hv0⟩ := hcov
  have ha : aoi p = true := observes_aoi hv0
  by_cases hms : sensor = "MSS"
  · subst hms
    rw [yearly_mss] at hok
    obtain rfl := Except.ok.inj hok
    have hmem0 := (mem_pixelValues_observes cfg cat aoi year p v0).1.mpr hv0
    obtain ⟨m, hmax, hmem, hle⟩ := composite_max_of_col
      (mssCollection cfg cat aoi year) aoi p ha (List.ne_nil_of_mem hmem0)
    refine ⟨m, hmax, (mem_pixelValues_observes cfg cat aoi year p m).1.mp hmem,
      ?_⟩
    intro v hv
    exact hle v ((mem_pixelValues_observes cfg cat aoi year p v).1.mpr hv)
  · by_cases hts : sensor = "TM"
    · subst hts
      rw [yearly_tm] at hok
      obtain rfl := Except.ok.inj hok
      have hmem0 := (mem_pixelValues_observes cfg cat aoi year p v0).2.mpr hv0
      obtain ⟨m, hmax, hmem, hle⟩ := composite_max_of_col
        (tmCollection cfg cat aoi year) aoi p ha (List.ne_nil_of_mem hmem0)
      refine ⟨m, hmax,
        (mem_pixelValues_observes cfg cat aoi year p m).2.mp hmem, ?_⟩
      intro v hv
      exact hle v ((mem_pixelValues_observes cfg cat aoi year p v).2.mpr hv)
    · rw [yearly_unknown cfg cat aoi year hms hts] at hok
      exact absurd hok (by simp)

/-- Witness for claim C1: with one 1975 Landsat 2 MSS image holding NIR = 3
and RED = 1 at pixel 0, the composite there is the single observed NDVI. -/
theorem composite_equals_max_observed_ndvi_witness :
    ∃ m, qualityMosaicNdvi (mssCollection CONFIG catalog1 aoi0 1975) aoi0 0 =
        some m ∧
      observes CONFIG catalog1 aoi0 1975 ("MSS") 0 m ∧
      ∀ v, observes CONFIG catalog1 aoi0 1975 ("MSS") 0 v → v ≤ m := by
  refine composite_equals_max_observed_ndvi CONFIG catalog1 aoi0 1975 ("MSS")
    0 (qualityMosaicNdvi (mssCollection CONFIG catalog1 aoi0 1975) aoi0)
    (yearly_mss CONFIG catalog1 aoi0 1975) ⟨1/2, Or.inl ⟨rfl, Or.inl ?_⟩⟩
  exact ⟨img1, by simp [catalog1], rfl, rfl, rfl, 3, 1, rfl, rfl,
    by norm_num⟩

/-- Claim C4: for an MSS year, the composite maximum ranges over the pooled
Landsat 2 and Landsat 3 MSS observations: it is attained in one of the two
collections and bounds the values of both. -/
theorem mss_composite_pools_landsat_2_and_3 (cfg : Config) (cat : Catalog)
    (aoi : Pixel → Bool) (year : Nat) (p : Pixel) (f : Pixel → Option ℚ)
    (hok : yearlyNdviComposite cfg cat aoi year ("MSS") = Except.ok f)
    (ha : aoi p = true)
    (hne : pixelValues (mssCollection cfg cat aoi year) p ≠ []) :
    ∃ m, f p = some m ∧
      (m ∈ pixelValues
          (makeNdviCollection cfg cat aoi year lm02Id mssNir mssRed) p ∨
       m ∈ pixelValues
          (makeNdviCollection cfg cat aoi year lm03Id mssNir mssRed) p) ∧
      (∀ v ∈ pixelValues
          (makeNdviCollection cfg cat aoi year lm02Id mssNir mssRed) p,
        v ≤ m) ∧
      (∀ v ∈ pixelValues
          (makeNdviCollection cfg cat aoi year lm03Id mssNir mssRed) p,
        v ≤ m) := by
  rw [yearly_mss] at hok
  obtain rfl := Except.ok.inj hok
  obtain ⟨m, hmax, hmem, hle⟩ := composite_max_of_col
    (mssCollection cfg cat aoi year) aoi p ha hne
  have hsplit : ∀ w : ℚ, w ∈ pixelValues (mssCollection cfg cat aoi year) p ↔
      w ∈ pixelValues
          (makeNdviCollection cfg cat aoi year lm02Id mssNir mssRed) p ∨
      w ∈ pixelValues
          (makeNdviCollection cfg cat aoi year lm03Id mssNir mssRed) p := by
    intro w
    rw [mssCollection, List.nil_append, mem_pixelValues_append]
  exact ⟨m, hmax, (hsplit m).mp hmem,
    fun v hv => hle v ((hsplit v).mpr (Or.inl hv)),
    fun v hv => hle v ((hsplit v).mpr (Or.inr hv))⟩

/-- Witness for claim C4: with a catalog holding only a Landsat 3 MSS image
(NIR = 4, RED = 1 at pixel 0), the MSS composite still sees its NDVI 3/5. -/
theorem mss_composite_pools_landsat_2_and_3_witness :
    ∃ m, qualityMosaicNdvi (mssCollection CONFIG catalog3 aoi0 1975) aoi0 0 =
        some m ∧
      (m ∈ pixelValues
          (makeNdviCollection CONFIG catalog3 aoi0 1975 lm02Id mssNir mssRed)
          0 ∨
       m ∈ pixelValues
          (makeNdviCollection CONFIG catalog3 aoi0 1975 lm03Id mssNir mssRed)
          0) ∧
      (∀ v ∈ pixelValues
          (makeNdviCollection CONFIG catalog3 aoi0 1975 lm02Id mssNir mssRed)
          0, v ≤ m) ∧
      (∀ v ∈ pixelValues
          (makeNdviCollection CONFIG catalog3 aoi0 1975 lm03Id mssNir mssRed)
          0, v ≤ m) := by
  have hm : (3/5 : ℚ) ∈ pixelValues (mssCollection CONFIG catalog3 aoi0 1975)
      0 := by
    rw [mssCollection, List.nil_append, mem_pixelValues_append]
    right
    rw [mem_pixelValues_makeNdviCollection]
    exact ⟨img3, by simp [catalog3], rfl, rfl, rfl, 4, 1, rfl, rfl,
      by norm_num⟩
  exact mss_composite_pools_landsat_2_and_3 CONFIG catalog3 aoi0 1975 0
    (qualityMosaicNdvi (mssCollection CONFIG catalog3 aoi0 1975) aoi0)
    (yearly_mss CONFIG catalog3 aoi0 1975) rfl (List.ne_nil_of_mem hm)

/-- Claim C8 counterexample: with the empty catalog, the 1975 MSS collection
is empty and evaluating the deferred composite fails with the select
no-matching-band error — the program does not yield an all-nodata raster
rather than an error. -/
theorem empty_collection_evaluation_cex :
    validSensorCollection CONFIG catalog0 aoi0 1975 ("MSS") = [] ∧
    evalComposite (validSensorCollection CONFIG catalog0 aoi0 1975 ("MSS"))
        aoi0 =
      Except.error ("Image.select: pattern NDVI did not match any bands.") :=
  ⟨rfl, rfl⟩

/-- Claim C8 amended: a valid (year, sensor) period never throws client-side;
when the period's collection is nonempty, its evaluation succeeds, every
pixel with no unmasked observation is nodata, and every unmasked composite
value stems from an observation (never a fabricated 0); when the collection
is empty, evaluation instead fails with the select no-matching-band error,
not an all-nodata raster. -/
theorem uncovered_nodata_and_empty_select_error (cfg : Config)
    (cat : Catalog) (aoi : Pixel → Bool) (year : Nat) (sensor : String)
    (hs : sensor = "MSS" ∨ sensor = "TM") :
    yearlyNdviComposite cfg cat aoi year sensor =
      Except.ok
        (qualityMosaicNdvi (validSensorCollection cfg cat aoi year sensor)
          aoi) ∧
    (validSensorCollection cfg cat aoi year sensor ≠ [] →
      ∃ f, evalComposite (validSensorCollection cfg cat aoi year sensor) aoi =
          Except.ok f ∧
        (∀ p, pixelValues (validSensorCollection cfg cat aoi year sensor) p =
          [] → f p = none) ∧
        (∀ p v, f p = some v →
          v ∈ pixelValues (validSensorCollection cfg cat aoi year sensor) p))
    ∧
    (validSensorCollection cfg cat aoi year sensor = [] →
      evalComposite (validSensorCollection cfg cat aoi year sensor) aoi =
        Except.error ("Image.select: pattern NDVI did not match any bands."))
    := by
  refine ⟨?_, ?_, ?_⟩
  · unfold yearlyNdviComposite
    rw [sensorCollection_valid cfg cat aoi year hs]
    rfl
  · intro hne
    refine ⟨qualityMosaicNdvi (validSensorCollection cfg cat aoi year sensor)
      aoi, ?_, ?_, ?_⟩
    · unfold evalComposite
      rw [if_neg (fun h => hne (List.isEmpty_eq_true.mp h))]
    · intro p hemp
      unfold qualityMosaicNdvi
      rw [hemp]
      split <;> rfl
    · intro p v hv
      unfold qualityMosaicNdvi at hv
      split at hv
      · exact List.max?_mem (fun a b => max_choice a b) hv
      · simp at hv
  · intro hemp
    rw [hemp]
    rfl

/-- Witness for the amended claim C8: with the one-image catalog the 1975
MSS collection is nonempty, evaluation succeeds and the uncovered pixel 1 is
nodata. -/
theorem uncovered_nodata_and_empty_select_error_witness :
    ∃ f, evalComposite
        (validSensorCollection CONFIG catalog1 aoi0 1975 ("MSS")) aoi0 =
      Except.ok f ∧ f 1 = none := by
  obtain ⟨-, h, -⟩ := uncovered_nodata_and_empty_select_error CONFIG catalog1
    aoi0 1975 ("MSS") (Or.inl rfl)
  obtain ⟨f, hok, hemp, -⟩ := h (by
    rw [show validSensorCollection CONFIG catalog1 aoi0 1975 ("MSS") =
        [ndviOf aoi0 mssNir mssRed img1] from rfl]
    exact List.cons_ne_nil _ _)
  exact ⟨f, hok, hemp 1 rfl⟩

/-- Claim C9: `yearlyNdviComposite` throws `Unknown sensor type: <sensor>`
for every sensor tag other than MSS and TM, and raises no exception for MSS
or TM. -/
theorem unknown_sensor_throws (cfg : Config) (cat : Catalog)
    (aoi : Pixel → Bool) (year : Nat) (sensor : String) :
    (sensor ≠ "MSS" → sensor ≠ "TM" →
      yearlyNdviComposite cfg cat aoi year sensor =
        Except.error ("Unknown sensor type: " ++ sensor)) ∧
    (∃ f, yearlyNdviComposite cfg cat aoi year ("MSS") = Except.ok f) ∧
    (∃ f, yearlyNdviComposite cfg cat aoi year ("TM") = Except.ok f) :=
  ⟨fun h1 h2 => yearly_unknown cfg cat aoi year h1 h2,
    ⟨_, yearly_mss cfg cat aoi year⟩, ⟨_, yearly_tm cfg cat aoi year⟩⟩

/-- Witness for claim C9: the sensor tag XYZ throws, while MSS succeeds. -/
theorem unknown_sensor_throws_witness :
    yearlyNdviComposite CONFIG catalog0 aoi0 1975 ("XYZ") =
      Except.error ("Unknown sensor type: " ++ "XYZ") ∧
    (∃ f, yearlyNdviComposite CONFIG catalog0 aoi0 1975 ("MSS") =
      Except.ok f) :=
  ⟨(unknown_sensor_throws CONFIG catalog0 aoi0 1975 ("XYZ")).1 (by decide)
      (by decide),
    (unknown_sensor_throws CONFIG catalog0 aoi0 1975 ("XYZ")).2.1⟩

/-- Claim C10 counterexample: at pixel 0 of an image with NIR = 2 and
RED = −2, GEE division by the zero sum yields the unmasked value 0, not a
masked pixel, and that 0 is among the values the composite maximum ranges
over. -/
theorem divide_by_zero_unmasked_cex :
    (ndviOf aoi0 tmNir tmRed imgZeroSum).band 0 = some 0 ∧
    (ndviOf aoi0 tmNir tmRed imgZeroSum).band 0 ≠ none ∧
    pixelValues [ndviOf aoi0 tmNir tmRed imgZeroSum] 0 = [0] := by
  have hb2 : imgZeroSum.bands tmNir 0 = some 2 := rfl
  have hbm2 : imgZeroSum.bands tmRed 0 = some (-2) := rfl
  have hband : (ndviOf aoi0 tmNir tmRed imgZeroSum).band 0 = some 0 := by
    norm_num [ndviOf, aoi0, hb2, hbm2, eeSub, eeAdd, eeDivide, div_zero]
  refine ⟨hband, by rw [hband]; exact Option.some_ne_none 0, ?_⟩
  unfold pixelValues
  simp only [List.filterMap_cons, List.filterMap_nil, hband]

/-- Claim C10 amended: the per-image NDVI computation is total — a pixel
where NIR + RED = 0 yields the unmasked value 0 (GEE division returns 0 for
division by 0) rather than a runtime failure or a masked pixel, and that 0
participates in the composite maximum comparison. -/
theorem zero_denominator_yields_zero (aoi : Pixel → Bool)
    (nirBand redBand : String) (img : RawImage) (p : Pixel) (n r : ℚ)
    (hn : img.bands nirBand p = some n) (hr : img.bands redBand p = some r)
    (hsum : n + r = 0) (ha : aoi p = true) :
    (ndviOf aoi nirBand redBand img).band p = some 0 ∧
    ∀ col, pixelValues (ndviOf aoi nirBand redBand img :: col) p =
      0 :: pixelValues col p := by
  have hband : (ndviOf aoi nirBand redBand img).band p = some 0 := by
    unfold ndviOf
    dsimp only
    rw [if_pos ha, hn, hr]
    simp only [eeSub, eeAdd, eeDivide, hsum, div_zero]
  refine ⟨hband, fun col => ?_⟩
  unfold pixelValues
  simp only [List.filterMap_cons, hband]

/-- Witness for the amended claim C10: the zero-sum image contributes the
unmasked value 0 at pixel 0, heading the compared values of the singleton
collection. -/
theorem zero_denominator_yields_zero_witness :
    (ndviOf aoi0 tmNir tmRed imgZeroSum).band 0 = some 0 ∧
    pixelValues [ndviOf aoi0 tmNir tmRed imgZeroSum] 0 =
      0 :: pixelValues [] 0 := by
  have h := zero_denominator_yields_zero aoi0 tmNir tmRed imgZeroSum 0 2 (-2)
    rfl rfl (by norm_num) rfl
  exact ⟨h.1, h.2 []⟩

/-- Claim C3 counterexample: a 1985 TM image with NIR = 1 and RED = −3 at
pixel 0 contributes NDVI −2 to the compared values and the composite takes
−2, not the clamped −1: no clamping to [−1, 1] happens before the maximum
comparison. -/
theorem ndvi_clamping_cex :
    ((-2 : ℚ) ∈ pixelValues (tmCollection CONFIG catalogNeg aoi0 1985) 0) ∧
    yearlyNdviComposite CONFIG catalogNeg aoi0 1985 ("TM") =
      Except.ok
        (qualityMosaicNdvi (tmCollection CONFIG catalogNeg aoi0 1985) aoi0) ∧
    qualityMosaicNdvi (tmCollection CONFIG catalogNeg aoi0 1985) aoi0 0 =
      some (-2) ∧
    ¬(-1 ≤ (-2 : ℚ) ∧ (-2 : ℚ) ≤ 1) := by
  have hcol : tmCollection CONFIG catalogNeg aoi0 1985 =
      [ndviOf aoi0 tmNir tmRed imgNeg] := rfl
  have hb4 : imgNeg.bands tmNir 0 = some 1 := rfl
  have hb3 : imgNeg.bands tmRed 0 = some (-3) := rfl
  have hvals : pixelValues (tmCollection CONFIG catalogNeg aoi0 1985) 0 =
      [-2] := by
    rw [hcol]
    norm_num [pixelValues, List.filterMap_cons, List.filterMap_nil, ndviOf,
      aoi0, hb4, hb3, eeSub, eeAdd, eeDivide]
  refine ⟨by rw [hvals]; exact List.mem_singleton.mpr rfl,
    yearly_tm CONFIG catalogNeg aoi0 1985, ?_, by norm_num⟩
  unfold qualityMosaicNdvi
  rw [hvals]
  rfl

/-- Claim C3 amended: no clamping is applied; every observation enters the
maximum comparison with its NDVI exactly as computed, (NIR − RED)/(NIR + RED),
even when that value lies outside [−1, 1]. -/
theorem ndvi_enters_comparison_unclamped (cfg : Config) (cat : Catalog)
    (aoi : Pixel → Bool) (year : Nat) (collectionId nirBand redBand : String)
    (p : Pixel) (n r : ℚ) (img : RawImage)
    (hmem : img ∈ cat collectionId)
    (hwin : inSummerWindow cfg year img = true)
    (hbnd : img.boundsIntersectAoi = true) (ha : aoi p = true)
    (hn : img.bands nirBand p = some n) (hr : img.bands redBand p = some r)
    (hs : n + r ≠ 0) :
    (n - r) / (n + r) ∈ pixelValues
      (makeNdviCollection cfg cat aoi year collectionId nirBand redBand) p :=
  (mem_pixelValues_makeNdviCollection cfg cat aoi year collectionId nirBand
    redBand p ((n - r) / (n + r))).mpr
    ⟨img, hmem, hwin, hbnd, ha, n, r, hn, hr, rfl⟩

/-- Witness for the amended claim C3: the unclamped value (1 − (−3))/(1 + (−3))
= −2 of `imgNeg` is among the compared values. -/
theorem ndvi_enters_comparison_unclamped_witness :
    ((1 : ℚ) - (-3)) / ((1 : ℚ) + (-3)) ∈ pixelValues
      (makeNdviCollection CONFIG catalogNeg aoi0 1985 lt05Id tmNir tmRed) 0 :=
  ndvi_enters_comparison_unclamped CONFIG catalogNeg aoi0 1985 lt05Id tmNir
    tmRed 0 1 (-3) imgNeg (by simp [catalogNeg]) rfl rfl rfl rfl rfl
    (by norm_num)

/-- Claim C7 counterexample: the 1985 TM composite over `catalogNeg` holds
the value −2 at pixel 0 — neither nodata nor inside [−1, 1]. -/
theorem composite_range_cex :
    yearlyNdviComposite CONFIG catalogNeg aoi0 1985 ("TM") =
      Except.ok
        (qualityMosaicNdvi (tmCollection CONFIG catalogNeg aoi0 1985) aoi0) ∧
    qualityMosaicNdvi (tmCollection CONFIG catalogNeg aoi0 1985) aoi0 0 =
      some (-2) ∧
    ¬(-1 ≤ (-2 : ℚ) ∧ (-2 : ℚ) ≤ 1) := by
  have hb4 : imgNeg.bands tmNir 0 = some 1 := rfl
  have hb3 : imgNeg.bands tmRed 0 = some (-3) := rfl
  have hvals : pixelValues (tmCollection CONFIG catalogNeg aoi0 1985) 0 =
      [-2] := by
    norm_num [show tmCollection CONFIG catalogNeg aoi0 1985 =
        [ndviOf aoi0 tmNir tmRed imgNeg] from rfl,
      pixelValues, List.filterMap_cons, List.filterMap_nil, ndviOf,
      aoi0, hb4, hb3, eeSub, eeAdd, eeDivide]
  refine ⟨yearly_tm CONFIG catalogNeg aoi0 1985, ?_, by norm_num⟩
  unfold qualityMosaicNdvi
  rw [hvals]
  rfl

/-- Claim C7 amended: when every band value in the catalog is non-negative
(as raw Landsat digital numbers are), every composite pixel is nodata or has
a value in [−1, 1]. -/
theorem composite_in_range_of_nonneg_bands (cfg : Config) (cat : Catalog)
    (aoi : Pixel → Bool) (year : Nat) (sensor : String)
    (f : Pixel → Option ℚ) (p : Pixel)
    (hnn : ∀ cid img, img ∈ cat cid →
      ∀ b p' w, img.bands b p' = some w → 0 ≤ w)
    (hok : yearlyNdviComposite cfg cat aoi year sensor = Except.ok f) :
    f p = none ∨ ∃ v, f p = some v ∧ -1 ≤ v ∧ v ≤ 1 := by
  by_cases hms : sensor = "MSS"
  · subst hms
    rw [yearly_mss] at hok
    obtain rfl := Except.ok.inj hok
    cases hv : qualityMosaicNdvi (mssCollection cfg cat aoi year) aoi p with
    | none => exact Or.inl rfl
    | some v =>
      have hmem : v ∈ pixelValues (mssCollection cfg cat aoi year) p := by
        unfold qualityMosaicNdvi at hv
        split at hv
        · exact List.max?_mem (fun a b => max_choice a b) hv
        · simp at hv
      right
      rcases (mem_pixelValues_observes cfg cat aoi year p v).1.mp hmem with
        ⟨_, hc | hc⟩ | ⟨habs, _⟩
      · exact ⟨v, rfl, (coversAt_range hnn hc).1, (coversAt_range hnn hc).2⟩
      · exact ⟨v, rfl, (coversAt_range hnn hc).1, (coversAt_range hnn hc).2⟩
      · exact absurd habs (by decide)
  · by_cases hts : sensor = "TM"
    · subst hts
      rw [yearly_tm] at hok
      obtain rfl := Except.ok.inj hok
      cases hv : qualityMosaicNdvi (tmCollection cfg cat aoi year) aoi p with
      | none => exact Or.inl rfl
      | some v =>
        have hmem : v ∈ pixelValues (tmCollection cfg cat aoi year) p := by
          unfold qualityMosaicNdvi at hv
          split at hv
          · exact List.max?_mem (fun a b => max_choice a b) hv
          · simp at hv
        right
        rcases (mem_pixelValues_observes cfg cat aoi year p v).2.mp hmem with
          ⟨habs, _⟩ | ⟨_, hc⟩
        · exact absurd habs (by decide)
        · exact ⟨v, rfl, (coversAt_range hnn hc).1, (coversAt_range hnn hc).2⟩
    · rw [yearly_unknown cfg cat aoi year hms hts] at hok
      exact absurd hok (by simp)

/-- Witness for the amended claim C7: `catalog1` holds only non-negative
band values, so its 1975 MSS composite at pixel 0 is nodata or in range. -/
theorem composite_in_range_of_nonneg_bands_witness :
    qualityMosaicNdvi (mssCollection CONFIG catalog1 aoi0 1975) aoi0 0 =
      none ∨
    ∃ v, qualityMosaicNdvi (mssCollection CONFIG catalog1 aoi0 1975) aoi0 0 =
      some v ∧ -1 ≤ v ∧ v ≤ 1 := by
  refine composite_in_range_of_nonneg_bands CONFIG catalog1 aoi0 1975 ("MSS")
    (qualityMosaicNdvi (mssCollection CONFIG catalog1 aoi0 1975) aoi0) 0 ?_
    (yearly_mss CONFIG catalog1 aoi0 1975)
  intro cid img hmem b p' w hw
  simp only [catalog1] at hmem
  split at hmem
  · have himg : img = img1 := by simpa using hmem
    subst himg
    simp only [img1] at hw
    split at hw
    · split at hw
      · obtain rfl := Option.some.inj hw
        norm_num
      · split at hw
        · obtain rfl := Option.some.inj hw
          norm_num
        · exact absurd hw (by simp)
    · exact absurd hw (by simp)
  · exact absurd hmem (by simp)

/-- Claim C5 counterexample: with periods [(1975, MSS), (1980, XYZ)] the run
does create the 1975 export task before aborting on the unknown tag, so an
invalid periods list does not prevent every export. -/
theorem failfast_cex :
    (runScript cfgBad catalog0 aoi0).2 =
      some ("Unknown sensor type: " ++ "XYZ") ∧
    (runScript cfgBad catalog0 aoi0).1.length = 1 ∧
    (runScript cfgBad catalog0 aoi0).1.map ExportTask.assetId =
      [("users/username/path/to/assets/NDVI_SUMMER_1975_clip")] := by
  refine ⟨by decide, by decide, by decide⟩

/-- Claim C5 amended: a period with an unknown sensor tag aborts the run at
that period — no export task is created for it or any later period — but
the export tasks of every valid period listed before it have already been
created when the error is thrown. -/
theorem run_aborts_at_first_unknown_sensor (cfg : Config) (cat : Catalog)
    (aoi : Pixel → Bool) (pre : List Period) (bad : Period)
    (post : List Period)
    (hpre : ∀ pr ∈ pre, pr.sensor = "MSS" ∨ pr.sensor = "TM")
    (hbad1 : bad.sensor ≠ "MSS") (hbad2 : bad.sensor ≠ "TM") :
    (runPeriods cfg cat aoi (pre ++ bad :: post)).2 =
      some ("Unknown sensor type: " ++ bad.sensor) ∧
    (runPeriods cfg cat aoi (pre ++ bad :: post)).1.map ExportTask.assetId =
      pre.map (fun pr => cfg.outputAssetFolder ++ "/" ++
        ("NDVI_SUMMER_" ++ toString pr.year ++ "_clip")) := by
  induction pre with
  | nil =>
    have herr := yearly_unknown cfg cat aoi bad.year hbad1 hbad2
    simp [runPeriods, herr]
  | cons pr pre ih =>
    have hg : ∃ g, yearlyNdviComposite cfg cat aoi pr.year pr.sensor =
        Except.ok g := by
      rcases hpre pr (List.mem_cons_self pr pre) with h | h <;> rw [h]
      · exact ⟨_, yearly_mss cfg cat aoi pr.year⟩
      · exact ⟨_, yearly_tm cfg cat aoi pr.year⟩
    obtain ⟨g, hg⟩ := hg
    have ih' := ih (fun q hq => hpre q (List.mem_cons_of_mem pr hq))
    rw [List.cons_append]
    constructor
    · show (runPeriods cfg cat aoi (pr :: (pre ++ bad :: post))).2 = _
      simp only [runPeriods, hg]
      exact ih'.1
    · simp only [runPeriods, hg, List.map_cons]
      rw [ih'.2]
      rfl

/-- Witness for the amended claim C5: the concrete two-period run stops at
the XYZ period with the 1975 task already created. -/
theorem run_aborts_at_first_unknown_sensor_witness :
    (runScript cfgBad catalog0 aoi0).2 =
      some ("Unknown sensor type: " ++ "XYZ") ∧
    (runScript cfgBad catalog0 aoi0).1.map ExportTask.assetId =
      [cfgBad.outputAssetFolder ++ "/" ++
        ("NDVI_SUMMER_" ++ toString 1975 ++ "_clip")] := by
  have h := run_aborts_at_first_unknown_sensor cfgBad catalog0 aoi0
    [⟨1975, "MSS"⟩] ⟨1980, "XYZ"⟩ []
    (by
      intro q hq
      rw [List.mem_singleton] at hq
      subst hq
      exact Or.inl rfl)
    (by decide) (by decide)
  exact ⟨h.1, h.2⟩

/-- Claim C6: running the script on its literal CONFIG creates one export
task per configured period, and all the created tasks carry pairwise
distinct asset ids. -/
theorem export_asset_ids_distinct :
    List.Pairwise (fun a b => a ≠ b)
      ((runScript CONFIG catalog0 aoi0).1.map ExportTask.assetId) ∧
    (runScript CONFIG catalog0 aoi0).1.length = CONFIG.periods.length := by
  refine ⟨by decide, by decide⟩
